import Mathlib

/-!
Shallow embedding of the losb backend (Telegram-bot user platform):
the webhook ingestion endpoint, the MessageLog store, the OTP generator,
the phone verification workflow, the birthday endpoint and the
last-message lookup, as implemented in `app/losb/api/v1/views.py` and the
data model of `app/losb/migrations/0001_initial.py`.

Service modules that are only called from the views (SmsVerificationService,
WebhookLastMessageService) are modelled from the specification; each such
definition carries a doc comment starting with `Modelled from the spec:`.
-/

set_option autoImplicit false

namespace Losb

/-- An absolute UTC instant; `datetime.fromtimestamp(d, tz=timezone.utc)` is
injective on epoch seconds, so the instant is represented by them. -/
structure UTCInstant where
  epochSeconds : Int
  deriving DecidableEq, Repr

/-- Embedding of `datetime.fromtimestamp(d, tz=timezone.utc)`. -/
def datetimeFromtimestampUtc (d : Int) : UTCInstant :=
  ⟨d⟩

/-- The `chat` object of a Telegram message payload (`message.chat.id`). -/
structure Chat where
  id : Int
  deriving DecidableEq, Repr

/-- A Telegram `message` payload; each field is `none` when the key is absent
from the JSON object (dict access on an absent key raises `KeyError`). -/
structure TgMessage where
  chat : Option Chat
  text : Option String
  date : Option Int
  deriving DecidableEq, Repr

/-- An inbound webhook payload; `message` is `none` when the key is absent. -/
structure WebhookUpdate where
  message : Option TgMessage
  deriving DecidableEq, Repr

/-- A row of the MessageLog model: chat id, latest text, sent-at instant. -/
structure MessageLogEntry where
  chat_id : Int
  text : String
  sent_at : UTCInstant
  deriving DecidableEq, Repr

/-- The MessageLog table, as the list of its rows. -/
abbrev MessageLogStore := List MessageLogEntry

/-- A Python exception escaping the view (not a DRF ApiException, so it
surfaces as an HTTP 5xx to the caller). -/
inductive PyError
  | keyError (key : String)
  deriving DecidableEq, Repr

/-- Embedding of `MessageLog.objects.update_or_create(chat_id=..., defaults=...)`:
if a row with this chat id exists it is overwritten in place, otherwise a new
row is appended. -/
def updateOrCreate (store : MessageLogStore) (cid : Int) (text : String)
    (ts : UTCInstant) : MessageLogStore :=
  if store.any (fun e => e.chat_id == cid) then
    store.map (fun e => if e.chat_id == cid then ⟨cid, text, ts⟩ else e)
  else
    store ++ [⟨cid, text, ts⟩]

/-- The webhook view's response body and HTTP status: `{"status": "ok"}`, 200. -/
structure WebhookResponse where
  status : String
  httpStatus : Nat
  deriving DecidableEq, Repr

/-- The acknowledgment the webhook view returns. -/
def webhookOk : WebhookResponse :=
  ⟨"ok", 200⟩

/-- Embedding of `TelegramWebhookAPIView.post`: if the payload has a `message`
key, read `message.chat.id` (KeyError when `chat` is absent), default the text
to the empty string, read `message.date` (KeyError when absent), convert it to
a UTC instant and upsert into MessageLog; then acknowledge with 200. There is
no exception handling in the view, so a raised KeyError escapes. -/
def telegramWebhookPost (store : MessageLogStore) (update : WebhookUpdate) :
    Except PyError (WebhookResponse × MessageLogStore) :=
  match update.message with
  | none => .ok (webhookOk, store)
  | some message =>
    match message.chat with
    | none => .error (.keyError "chat")
    | some chat =>
      let text := message.text.getD ""
      match message.date with
      | none => .error (.keyError "date")
      | some d =>
        let timestamp := datetimeFromtimestampUtc d
        .ok (webhookOk, updateOrCreate store chat.id text timestamp)

/-- The store left behind by one webhook call: the updated store on success,
the unchanged store when the view raised (the database write is the last
operation of the view, so an escaping exception leaves the table untouched). -/
def webhookStep (store : MessageLogStore) (u : WebhookUpdate) : MessageLogStore :=
  match telegramWebhookPost store u with
  | .ok (_, s) => s
  | .error _ => store

/-- The store after a sequence of webhook calls. -/
def webhookProcessAll (store : MessageLogStore) (us : List WebhookUpdate) :
    MessageLogStore :=
  us.foldl webhookStep store

/-- Number of rows of the store holding the given chat id. -/
def chatCount (store : MessageLogStore) (c : Int) : Nat :=
  store.countP (fun e => e.chat_id == c)

/-- The MessageLog invariant: at most one row per chat identifier. -/
def AtMostOnePerChat (store : MessageLogStore) : Prop :=
  ∀ c : Int, chatCount store c ≤ 1

/-- The row of the store for a chat id, if any (first match). -/
def findEntry (store : MessageLogStore) (cid : Int) : Option MessageLogEntry :=
  store.find? (fun e => e.chat_id == cid)

/-- The alphabet `'123456789'` that `UserPhoneUpdateView.get_otp` draws from. -/
def otpAlphabet : List Char :=
  ['1', '2', '3', '4', '5', '6', '7', '8', '9']

/-- Embedding of `UserPhoneUpdateView.get_otp`: joins `digits` draws of
`SystemRandom().choice('123456789')`. The secure random source is the oracle
`rng`, giving the index drawn at each of the independent positions; the digit
count is the configured `settings.SMS_VERIFICATION_CODE_DIGITS`. -/
def get_otp (digits : Nat) (rng : Nat → Fin 9) : String :=
  String.mk ((List.range digits).map (fun i => otpAlphabet.getD (rng i).val '0'))

/-- The Phone model of migration 0001_initial: `code` and `phone` are both
`PositiveSmallIntegerField` columns. -/
structure Phone where
  code : Nat
  phone : Nat
  deriving DecidableEq, Repr

/-- The largest value a Django `PositiveSmallIntegerField` column holds. -/
def positiveSmallIntegerFieldMax : Nat :=
  32767

/-- Persisting a Phone row: the `PositiveSmallIntegerField` columns accept a
value only in `0..32767`; a larger value cannot be stored (`none`). -/
def phoneCreate (code number : Nat) : Option Phone :=
  if code ≤ positiveSmallIntegerFieldMax ∧ number ≤ positiveSmallIntegerFieldMax then
    some ⟨code, number⟩
  else
    none

/-- Structural validity in the words of the spec and claim: a candidate phone
country code and number are structurally valid when both are positive integers
within the valid phone formatting range (so any real-world phone number, e.g.
a ten-digit mobile number, is structurally valid). -/
def specStructurallyValidPhone (code number : Nat) : Prop :=
  0 < code ∧ 0 < number

/-- A pending phone verification: the issued OTP and the candidate phone. -/
structure PendingVerification where
  otp : String
  code : Nat
  number : Nat
  deriving DecidableEq, Repr

/-- The per-user state the claims touch: the write-once birthday (an instant,
`none` when unset), the associated phone, the pending verification. -/
structure UserState where
  birthday : Option Int
  phone : Option Phone
  pending : Option PendingVerification
  deriving DecidableEq, Repr

/-- The error taxonomy raised by the views and services. -/
inductive ApiError
  | birthdayAlreadyRegistered
  | validationError
  | smsDeliveryError (detail : String)
  | noPendingVerification
  | codeMismatch
  deriving DecidableEq, Repr

/-- Embedding of `UserBirthdayAPIView.post`: first, if the user's birthday is
already set, raise `BirthdayAlreadyRegistered`; only then run serializer
validation on the request body (`none` models a malformed or empty body, which
fails validation) and store the validated value. -/
def userBirthdayPost (user : UserState) (body : Option Int) :
    Except ApiError UserState :=
  if user.birthday.isSome then
    .error .birthdayAlreadyRegistered
  else
    match body with
    | none => .error .validationError
    | some bday => .ok ⟨some bday, user.phone, user.pending⟩

/-- The persisted user state after a birthday POST: a raised error leaves the
stored user untouched. -/
def userBirthdayPostState (user : UserState) (body : Option Int) : UserState :=
  match userBirthdayPost user body with
  | .ok u2 => u2
  | .error _ => user

/-- Modelled from the spec: `SmsVerificationService.request_verification` (the
service module is not under src/, only its caller `views.py` is). It generates
an OTP, invokes the SMS Delivery Gateway, and on success records a
PendingVerification for the user associating the OTP with the candidate phone,
superseding any prior pending state; if delivery fails, it fails with a
delivery error carrying the human-readable cause and the pending state is not
committed. The gateway outcome is the parameter `deliveryFailure` (`none` is a
successful delivery, `some cause` a failure with that cause). -/
def request_verification (user : UserState) (code number : Nat) (otp : String)
    (deliveryFailure : Option String) : Except ApiError (UserState × String) :=
  match deliveryFailure with
  | some cause => .error (.smsDeliveryError cause)
  | none => .ok (⟨user.birthday, user.phone, some ⟨otp, code, number⟩⟩, otp)

/-- The response body of the OTP request endpoint: `{"otp": verification_code}`. -/
structure PhonePostResponse where
  otp : String
  deriving DecidableEq, Repr

/-- Embedding of `UserPhoneUpdateView.post`: runs `request_verification`; an
`SmsDeliveryError e` is re-raised as `SmsDeliveryError` with detail
`f"Failed to send SMS: {e}"`; on success the generated code is returned to the
caller in the body as `otp` with HTTP 200. -/
def userPhonePost (user : UserState) (code number : Nat) (otp : String)
    (deliveryFailure : Option String) :
    Except ApiError (UserState × PhonePostResponse) :=
  match request_verification user code number otp deliveryFailure with
  | .error (.smsDeliveryError e) =>
    .error (.smsDeliveryError ("Failed to send SMS: " ++ e))
  | .error e => .error e
  | .ok (u2, verification_code) => .ok (u2, ⟨verification_code⟩)

/-- Modelled from the spec: `SmsVerificationService.verify_code` (the service
module is not under src/, only its caller `views.py` is). It looks up the
user's pending verification, failing with `NoPendingVerification` when none
exists; fails with `CodeMismatch` when the submitted OTP or the candidate
code/number differ from what was recorded; on success persists the Phone,
associates it with the user replacing any prior phone, and clears the pending
verification (single use). -/
def verify_code (user : UserState) (otp : String) (code number : Nat) :
    Except ApiError UserState :=
  match user.pending with
  | none => .error .noPendingVerification
  | some p =>
    if p.otp = otp ∧ p.code = code ∧ p.number = number then
      .ok ⟨user.birthday, some ⟨code, number⟩, none⟩
    else
      .error .codeMismatch

/-- What the last-message service returns for a chat: the latest text and its
sent-at instant. -/
structure LastMessageInfo where
  message : String
  time : UTCInstant
  deriving DecidableEq, Repr

/-- Two-digit zero padding, as `strftime` renders hours and minutes. -/
def pad2 (n : Int) : String :=
  if n < 10 then "0" ++ toString n else toString n

/-- Embedding of `time.strftime('%H:%M')` on a UTC instant: hour and minute of
day, zero-padded, 24-hour clock. -/
def strftimeHM (t : UTCInstant) : String :=
  pad2 ((t.epochSeconds.ediv 3600).emod 24) ++ ":" ++ pad2 ((t.epochSeconds.ediv 60).emod 60)

/-- The response of `LastMessageAPIView.get`: HTTP status and the body fields
the view populates (absent fields are `none`; the error branch's body is only
`{"error": ...}`). -/
structure LastMessageResponse where
  httpStatus : Nat
  error : Option String
  avatar_url : Option String
  message : Option String
  time : Option String
  deriving DecidableEq, Repr

/-- Modelled from the spec: `WebhookLastMessageService.get_last_message` (the
service module is not under src/, only its caller `views.py` is). It looks up
MessageLog by the chat identifier — absence is not an error, the info is just
`none` — and reports an error exactly when avatar resolution failed; the
avatar-resolution outcome is the parameter `avatarFailure` (`none` is success,
`some cause` a failure with that cause). -/
def get_last_message (store : MessageLogStore) (chat_id : Int)
    (avatarFailure : Option String) : Option LastMessageInfo × Option String :=
  ((findEntry store chat_id).map (fun e => ⟨e.text, e.sent_at⟩), avatarFailure)

/-- Modelled from the spec: `WebhookLastMessageService.get_avatar_url` resolves
the avatar URL via the bot-platform profile-photo API; `avatar` is the resolved
URL (possibly none/empty), available only when resolution did not fail. -/
def get_avatar_url (avatarFailure : Option String) (avatar : Option String) :
    Option String :=
  match avatarFailure with
  | some _ => none
  | none => avatar

/-- Embedding of the response assembly in `LastMessageAPIView.get`: when the
service reported an error, respond 400 with a body holding only `error`;
otherwise respond 200 with the avatar URL, and the message text and
`strftime('%H:%M')` time when a row exists (`none` otherwise). -/
def lastMessageGet (last_message_info : Option LastMessageInfo)
    (error : Option String) (avatar_url : Option String) : LastMessageResponse :=
  match error with
  | some e => ⟨400, some e, none, none, none⟩
  | none =>
    ⟨200, none, avatar_url,
      last_message_info.map (fun i => i.message),
      last_message_info.map (fun i => strftimeHM i.time)⟩

/-- Embedding of `LastMessageAPIView.get` end to end: query the service for
the user's chat id, resolve the avatar, assemble the response. -/
def lastMessageEndpoint (store : MessageLogStore) (chat_id : Int)
    (avatarFailure : Option String) (avatar : Option String) : LastMessageResponse :=
  let r := get_last_message store chat_id avatarFailure
  lastMessageGet r.1 r.2 (get_avatar_url avatarFailure avatar)

/-! Helper lemmas about the MessageLog upsert. -/

theorem overwrite_chat_id (e : MessageLogEntry) (cid : Int) (text : String)
    (ts : UTCInstant) :
    (if e.chat_id == cid then (⟨cid, text, ts⟩ : MessageLogEntry) else e).chat_id =
      e.chat_id := by
  by_cases h : e.chat_id = cid
  · simp [h]
  · simp [h]

theorem findEntry_updateOrCreate (store : MessageLogStore) (cid : Int)
    (text : String) (ts : UTCInstant) :
    findEntry (updateOrCreate store cid text ts) cid = some ⟨cid, text, ts⟩ := by
  induction store with
  | nil => simp [findEntry, updateOrCreate]
  | cons e rest ih =>
    unfold updateOrCreate findEntry at ih ⊢
    by_cases h : (e.chat_id == cid) = true
    · rw [if_pos (by simp [List.any_cons, h]), List.map_cons, if_pos h]
      simp [List.find?_cons]
    · have hbf : (e.chat_id == cid) = false := by simpa using h
      by_cases hr : rest.any (fun x => x.chat_id == cid) = true
      · rw [if_pos hr] at ih
        rw [if_pos (by simp [List.any_cons, hr]), List.map_cons, if_neg h]
        simp only [List.find?_cons, hbf]
        exact ih
      · have hrf : rest.any (fun x => x.chat_id == cid) = false := by simpa using hr
        rw [if_neg hr] at ih
        rw [if_neg (by simp [List.any_cons, hbf, hrf]), List.cons_append]
        simp only [List.find?_cons, hbf]
        exact ih

theorem chatCount_map_overwrite (store : MessageLogStore) (cid : Int)
    (text : String) (ts : UTCInstant) (c : Int) :
    chatCount (store.map (fun e => if e.chat_id == cid then ⟨cid, text, ts⟩ else e)) c =
      chatCount store c := by
  unfold chatCount
  rw [List.countP_map]
  refine List.countP_congr (fun e _ => ?_)
  by_cases h : e.chat_id = cid
  · simp [Function.comp, h]
  · simp [Function.comp, h]

theorem chatCount_updateOrCreate_le (store : MessageLogStore) (cid : Int)
    (text : String) (ts : UTCInstant) (c : Int) (h : chatCount store c ≤ 1) :
    chatCount (updateOrCreate store cid text ts) c ≤ 1 := by
  unfold updateOrCreate
  by_cases hr : store.any (fun e => e.chat_id == cid) = true
  · rw [if_pos hr, chatCount_map_overwrite]
    exact h
  · have hrf : store.any (fun e => e.chat_id == cid) = false := by simpa using hr
    rw [if_neg hr]
    by_cases hc : cid = c
    · subst hc
      have h0 : chatCount store cid = 0 := by
        unfold chatCount
        rw [List.countP_eq_zero]
        exact List.any_eq_false.mp hrf
      unfold chatCount at h h0 ⊢
      rw [List.countP_append, h0]
      simp [List.countP_cons]
    · have h1 : List.countP (fun e => e.chat_id == c)
          [(⟨cid, text, ts⟩ : MessageLogEntry)] = 0 := by
        simp [List.countP_cons, hc]
      unfold chatCount at h ⊢
      rw [List.countP_append]
      omega

theorem webhookStep_cases (s : MessageLogStore) (u : WebhookUpdate) :
    webhookStep s u = s ∨
    ∃ msg chat d, u.message = some msg ∧ msg.chat = some chat ∧ msg.date = some d ∧
      webhookStep s u =
        updateOrCreate s chat.id (msg.text.getD "") (datetimeFromtimestampUtc d) := by
  rcases u with ⟨_ | ⟨⟨_ | chat, text, _ | d⟩⟩⟩
  · exact .inl rfl
  · exact .inl rfl
  · exact .inl rfl
  · exact .inl rfl
  · exact .inr ⟨_, _, _, rfl, rfl, rfl, rfl⟩

theorem atMostOne_webhookStep (s : MessageLogStore) (u : WebhookUpdate)
    (h : AtMostOnePerChat s) : AtMostOnePerChat (webhookStep s u) := by
  rcases webhookStep_cases s u with heq | ⟨msg, chat, d, _, _, _, heq⟩
  · rwa [heq]
  · rw [heq]
    intro c
    exact chatCount_updateOrCreate_le s chat.id (msg.text.getD "")
      (datetimeFromtimestampUtc d) c (h c)

theorem atMostOne_processAll (s : MessageLogStore) (us : List WebhookUpdate)
    (h : AtMostOnePerChat s) : AtMostOnePerChat (webhookProcessAll s us) := by
  induction us generalizing s with
  | nil => simpa [webhookProcessAll] using h
  | cons u us ih =>
    have : webhookProcessAll s (u :: us) = webhookProcessAll (webhookStep s u) us := rfl
    rw [this]
    exact ih (webhookStep s u) (atMostOne_webhookStep s u h)

/-! Claim theorems. -/

/-- Claim C1: the claim says every webhook payload is acknowledged with 200 and
processing errors on payloads containing `message` are absorbed internally.
The view has no exception handling: evaluating it on the payload
`{"message": {}}` (a `message` key whose object lacks `chat`) raises
`KeyError('chat')`, which escapes the view and surfaces as a server error to
the external caller instead of the 200 acknowledgment. -/
theorem webhook_message_without_chat_raises :
    telegramWebhookPost [] ⟨some ⟨none, none, none⟩⟩ = .error (.keyError "chat") :=
  rfl

/-- Claim C2: starting from any MessageLog store with at most one row per chat
identifier, after any sequence of webhook events the store still has at most
one row per chat identifier; and any single webhook event carrying a message
for some chat leaves, as the row for that chat, exactly the event's text
(defaulted to the empty string) and converted timestamp — an upsert that
overwrites, never a history. -/
theorem webhook_upsert_at_most_one (store : MessageLogStore)
    (h : AtMostOnePerChat store) (events : List WebhookUpdate) :
    AtMostOnePerChat (webhookProcessAll store events) ∧
    ∀ (s : MessageLogStore) (u : WebhookUpdate) (msg : TgMessage) (chat : Chat) (d : Int),
      u.message = some msg → msg.chat = some chat → msg.date = some d →
      findEntry (webhookStep s u) chat.id =
        some ⟨chat.id, msg.text.getD "", datetimeFromtimestampUtc d⟩ := by
  refine ⟨atMostOne_processAll store events h, ?_⟩
  intro s u msg chat d hm hc hd
  have : webhookStep s u =
      updateOrCreate s chat.id (msg.text.getD "") (datetimeFromtimestampUtc d) := by
    rcases u with ⟨m⟩
    cases hm
    rcases msg with ⟨mc, mt, md⟩
    cases hc
    cases hd
    rfl
  rw [this]
  exact findEntry_updateOrCreate s chat.id (msg.text.getD "") (datetimeFromtimestampUtc d)

/-- Witness for C2 at the empty store and the single event of spec §8.5. -/
theorem webhook_upsert_at_most_one_witness :
    AtMostOnePerChat ([] : MessageLogStore) ∧
    (AtMostOnePerChat
        (webhookProcessAll [] [⟨some ⟨some ⟨42⟩, some "hi", some 1700000000⟩⟩]) ∧
      ∀ (s : MessageLogStore) (u : WebhookUpdate) (msg : TgMessage) (chat : Chat) (d : Int),
        u.message = some msg → msg.chat = some chat → msg.date = some d →
        findEntry (webhookStep s u) chat.id =
          some ⟨chat.id, msg.text.getD "", datetimeFromtimestampUtc d⟩) :=
  have h0 : AtMostOnePerChat ([] : MessageLogStore) := fun c => by
    simp [chatCount]
  ⟨h0, webhook_upsert_at_most_one [] h0 [⟨some ⟨some ⟨42⟩, some "hi", some 1700000000⟩⟩]⟩

/-- Claim C3: for every configured length L ≥ 1 and every draw of the random
oracle, `get_otp` returns a string of exactly L characters, each a character of
the alphabet `'123456789'`, hence between '1' and '9' and never '0'. -/
theorem get_otp_length_and_alphabet (L : Nat) (rng : Nat → Fin 9) (h : 1 ≤ L) :
    (get_otp L rng).length = L ∧
    ∀ c ∈ (get_otp L rng).toList,
      c ∈ otpAlphabet ∧ ('1' ≤ c ∧ c ≤ '9') ∧ c ≠ '0' := by
  constructor
  · simp [get_otp, String.length]
  · intro c hc
    simp only [get_otp, String.toList, List.mem_map, List.mem_range] at hc
    obtain ⟨i, _, rfl⟩ := hc
    have hv9 := (rng i).isLt
    generalize hg : (rng i).val = v
    rw [hg] at hv9
    interval_cases v <;> decide

/-- Witness for C3 at length 4 and the constant-zero oracle. -/
theorem get_otp_length_and_alphabet_witness :
    1 ≤ 4 ∧
    ((get_otp 4 (fun _ => (0 : Fin 9))).length = 4 ∧
      ∀ c ∈ (get_otp 4 (fun _ => (0 : Fin 9))).toList,
        c ∈ otpAlphabet ∧ ('1' ≤ c ∧ c ≤ '9') ∧ c ≠ '0') :=
  ⟨by decide, get_otp_length_and_alphabet 4 (fun _ => (0 : Fin 9)) (by decide)⟩

/-- Claim C4: for a user with a pending verification, verifying with the
stored OTP and the matching candidate phone succeeds, persists the phone on
the user (replacing any prior phone) and clears the pending verification; a
second verification attempt with the same now-consumed OTP fails with
`NoPendingVerification`. -/
theorem verify_code_single_use (user : UserState) (p : PendingVerification)
    (h : user.pending = some p) :
    verify_code user p.otp p.code p.number =
      .ok ⟨user.birthday, some ⟨p.code, p.number⟩, none⟩ ∧
    verify_code ⟨user.birthday, some ⟨p.code, p.number⟩, none⟩ p.otp p.code p.number =
      .error .noPendingVerification := by
  constructor
  · simp [verify_code, h]
  · rfl

/-- Witness for C4 at a concrete user with a pending verification. -/
theorem verify_code_single_use_witness :
    (⟨none, none, some ⟨"1234", 7, 926⟩⟩ : UserState).pending = some ⟨"1234", 7, 926⟩ ∧
    (verify_code ⟨none, none, some ⟨"1234", 7, 926⟩⟩ "1234" 7 926 =
        .ok ⟨none, some ⟨7, 926⟩, none⟩ ∧
      verify_code ⟨none, some ⟨7, 926⟩, none⟩ "1234" 7 926 =
        .error .noPendingVerification) :=
  ⟨rfl, verify_code_single_use ⟨none, none, some ⟨"1234", 7, 926⟩⟩ ⟨"1234", 7, 926⟩ rfl⟩

/-- Claim C5: for a user with no birthday set, the first birthday POST
succeeds and stores the value; every subsequent attempt on the resulting user
fails with `BirthdayAlreadyRegistered` and leaves the stored birthday equal to
the first value set. -/
theorem birthday_write_once (user : UserState) (b : Int) (body2 : Option Int)
    (h : user.birthday = none) :
    userBirthdayPost user (some b) = .ok ⟨some b, user.phone, user.pending⟩ ∧
    userBirthdayPost ⟨some b, user.phone, user.pending⟩ body2 =
      .error .birthdayAlreadyRegistered ∧
    userBirthdayPostState ⟨some b, user.phone, user.pending⟩ body2 =
      ⟨some b, user.phone, user.pending⟩ := by
  refine ⟨?_, rfl, rfl⟩
  simp [userBirthdayPost, h]

/-- Witness for C5 at a fresh user, first value 123, second attempt malformed. -/
theorem birthday_write_once_witness :
    (⟨none, none, none⟩ : UserState).birthday = none ∧
    (userBirthdayPost ⟨none, none, none⟩ (some 123) = .ok ⟨some 123, none, none⟩ ∧
      userBirthdayPost ⟨some 123, none, none⟩ none = .error .birthdayAlreadyRegistered ∧
      userBirthdayPostState ⟨some 123, none, none⟩ none = ⟨some 123, none, none⟩) :=
  ⟨rfl, birthday_write_once ⟨none, none, none⟩ 123 none rfl⟩

/-- Claim C6: if the SMS delivery fails with any cause, the OTP request
endpoint fails with an `SmsDeliveryError` carrying the human-readable cause;
if delivery succeeds, the endpoint returns the generated OTP value in the
response body as `otp`. -/
theorem phone_post_delivery (user : UserState) (code number : Nat) (otp : String) :
    (∀ cause : String,
      userPhonePost user code number otp (some cause) =
        .error (.smsDeliveryError ("Failed to send SMS: " ++ cause))) ∧
    userPhonePost user code number otp none =
      .ok (⟨user.birthday, user.phone, some ⟨otp, code, number⟩⟩, ⟨otp⟩) :=
  ⟨fun _ => rfl, rfl⟩

/-- Claim C7: when the last-message service reports an avatar-resolution
error, the response is HTTP 400 with a body holding the `error` field,
whatever the MessageLog holds; otherwise the response is HTTP 200 with no
error, the avatar URL, and the message text and time of the chat's row
(`none` when no row exists — absence is not an error). -/
theorem last_message_avatar_error (store : MessageLogStore) (chat_id : Int)
    (avatar : Option String) :
    (∀ cause : String,
      lastMessageEndpoint store chat_id (some cause) avatar =
        ⟨400, some cause, none, none, none⟩) ∧
    (lastMessageEndpoint store chat_id none avatar).httpStatus = 200 ∧
    (lastMessageEndpoint store chat_id none avatar).error = none ∧
    (lastMessageEndpoint store chat_id none avatar).avatar_url = avatar ∧
    (lastMessageEndpoint store chat_id none avatar).message =
      (findEntry store chat_id).map (fun e => e.text) ∧
    (lastMessageEndpoint store chat_id none avatar).time =
      (findEntry store chat_id).map (fun e => strftimeHM e.sent_at) := by
  refine ⟨fun cause => rfl, rfl, rfl, rfl, ?_, ?_⟩
  · cases hf : findEntry store chat_id <;>
      simp [lastMessageEndpoint, get_last_message, get_avatar_url, lastMessageGet, hf]
  · cases hf : findEntry store chat_id <;>
      simp [lastMessageEndpoint, get_last_message, get_avatar_url, lastMessageGet, hf]

/-- Claim C8: a webhook payload carrying a message stores, for the chat of
`message.chat.id`, the text of `message.text` defaulted to the empty string
when absent, and the Unix timestamp `message.date` converted to an absolute
UTC instant; the stored row holds exactly those values, and the conversion
preserves the epoch seconds. -/
theorem webhook_extracts_fields (store : MessageLogStore) (msg : TgMessage)
    (chat : Chat) (d : Int) (hc : msg.chat = some chat) (hd : msg.date = some d) :
    telegramWebhookPost store ⟨some msg⟩ =
      .ok (webhookOk,
        updateOrCreate store chat.id (msg.text.getD "") (datetimeFromtimestampUtc d)) ∧
    findEntry (updateOrCreate store chat.id (msg.text.getD "") (datetimeFromtimestampUtc d))
        chat.id = some ⟨chat.id, msg.text.getD "", datetimeFromtimestampUtc d⟩ ∧
    (datetimeFromtimestampUtc d).epochSeconds = d := by
  refine ⟨?_, findEntry_updateOrCreate store chat.id (msg.text.getD "") _, rfl⟩
  rcases msg with ⟨mc, mt, md⟩
  cases hc
  cases hd
  rfl

/-- Witness for C8 at the payload of spec §8.5. -/
theorem webhook_extracts_fields_witness :
    (⟨some ⟨42⟩, some "hi", some 1700000000⟩ : TgMessage).chat = some ⟨42⟩ ∧
    (⟨some ⟨42⟩, some "hi", some 1700000000⟩ : TgMessage).date = some 1700000000 ∧
    (telegramWebhookPost [] ⟨some ⟨some ⟨42⟩, some "hi", some 1700000000⟩⟩ =
        .ok (webhookOk, updateOrCreate [] 42 "hi" (datetimeFromtimestampUtc 1700000000)) ∧
      findEntry (updateOrCreate [] 42 "hi" (datetimeFromtimestampUtc 1700000000)) 42 =
        some ⟨42, "hi", datetimeFromtimestampUtc 1700000000⟩ ∧
      (datetimeFromtimestampUtc 1700000000).epochSeconds = 1700000000) :=
  ⟨rfl, rfl,
    webhook_extracts_fields [] ⟨some ⟨42⟩, some "hi", some 1700000000⟩ ⟨42⟩ 1700000000
      rfl rfl⟩

/-- Claim C9 counterexample: the phone `+7 926 123 45 67` — country code 7 and
number 9261234567, both positive integers, a perfectly formatted real-world
phone — cannot be persisted by the Phone model: its number exceeds the 32767
bound of the `PositiveSmallIntegerField` column, so no row stores the
submitted values. -/
theorem phone_valid_number_not_persistable :
    specStructurallyValidPhone 7 9261234567 ∧ phoneCreate 7 9261234567 = none :=
  ⟨⟨by decide, by decide⟩, by decide⟩

/-- Claim C9 as amended: the Phone entity persists the submitted country code
and number exactly as given precisely when both fit the
`PositiveSmallIntegerField` columns, i.e. are at most 32767. -/
theorem phone_create_within_field_range (code number : Nat)
    (hc : code ≤ positiveSmallIntegerFieldMax)
    (hn : number ≤ positiveSmallIntegerFieldMax) :
    phoneCreate code number = some ⟨code, number⟩ := by
  unfold phoneCreate
  exact if_pos ⟨hc, hn⟩

/-- Witness for the amended C9 at code 7, number 926. -/
theorem phone_create_within_field_range_witness :
    7 ≤ positiveSmallIntegerFieldMax ∧ 926 ≤ positiveSmallIntegerFieldMax ∧
    phoneCreate 7 926 = some ⟨7, 926⟩ :=
  ⟨by decide, by decide, phone_create_within_field_range 7 926 (by decide) (by decide)⟩

/-- Claim C10: for a user whose birthday is already set, the birthday POST
fails with `BirthdayAlreadyRegistered` before any validation of the request
body: every body — including the malformed/empty one — yields
`BirthdayAlreadyRegistered` rather than a `ValidationError`, and the stored
user state is unchanged. -/
theorem birthday_precheck_before_validation (user : UserState) (body : Option Int)
    (h : user.birthday.isSome) :
    userBirthdayPost user body = .error .birthdayAlreadyRegistered ∧
    userBirthdayPostState user body = user := by
  constructor
  · simp [userBirthdayPost, h]
  · simp [userBirthdayPostState, userBirthdayPost, h]

/-- Witness for C10 at a user with birthday set and a malformed body. -/
theorem birthday_precheck_before_validation_witness :
    (⟨some 5, none, none⟩ : UserState).birthday.isSome ∧
    (userBirthdayPost ⟨some 5, none, none⟩ none = .error .birthdayAlreadyRegistered ∧
      userBirthdayPostState ⟨some 5, none, none⟩ none = ⟨some 5, none, none⟩) :=
  ⟨by decide, birthday_precheck_before_validation ⟨some 5, none, none⟩ none (by decide)⟩

end Losb
